import Mathlib

/-!
Shallow embedding of `tesla_charger_alphaess.py`: the Tesla charge-state
logic (`is_able_to_charge`, `calculate_charger_amps_request`,
`get_charge_state`, `report_and_change_charge_rate`), the AlphaEss
inverter availability computation (`available_watts`), and the control
loop (`charge_loop`), together with theorems settling the frozen claims.

Python ints are modelled as `Int` (or `Nat` for counters), Python floats
as `Rat` (the claims under study do not depend on binary floating-point
rounding), network effects as explicit inputs (the fetched charge state
is a parameter; the remote EV call in the loop is an oracle function),
and remote commands as an explicit list of issued `Command`s.
-/

namespace TeslaChargerAlphaess

/-- The fields of the Tesla `charge_state` dict that the control logic
reads.  `not_enough_power_to_heat` is `bool | null` in the API, hence
`Option Bool`; the remaining report-only fields (battery level, range,
energy added, ...) are only printed and do not influence control, so
they are omitted. -/
structure ChargeState where
  not_enough_power_to_heat : Option Bool
  charge_port_latch : String
  charge_port_door_open : Bool
  charging_state : String
  charger_actual_current : Int
  charge_current_request_max : Int
  deriving DecidableEq

/-- Python's `str(bool)` rendering, used by the f-strings in
`is_able_to_charge`. -/
def pyBool (b : Bool) : String :=
  if b then "True" else "False"

/-- Rendering of the `not_enough_power_to_heat` value in the reason
f-string (`None`, `True` or `False`). -/
def pyOptBool : Option Bool → String
  | none => "None"
  | some b => pyBool b

/-- `TeslaEv.is_able_to_charge` (source lines 101-111): optionally
returns the reason the ev can't be charged. -/
def is_able_to_charge (charge_state : ChargeState) : Option String :=
  if charge_state.not_enough_power_to_heat ≠ none then
    some ("not_enough_power_to_heat : " ++ pyOptBool charge_state.not_enough_power_to_heat)
  else if charge_state.charge_port_latch ≠ "Engaged" then
    some ("charge_port_latch : " ++ charge_state.charge_port_latch)
  else if ¬ charge_state.charge_port_door_open then
    some ("charge_port_door_open : " ++ pyBool charge_state.charge_port_door_open)
  else
    none

/-- `TeslaEv.charge_amps_min` (source line 79): Tesla charging is
inefficient at low amps. -/
def charge_amps_min : Int := 1

/-- `TeslaEv.calculate_charger_amps_request` (source lines 127-145):
calculate amps for charging rate. -/
def calculate_charger_amps_request (amps_delta : Int) (charge_state : ChargeState) : Int :=
  let amps_request : Int := charge_state.charger_actual_current + amps_delta
  let amps_request : Int :=
    if amps_request < 0 then 0
    else if amps_request < charge_amps_min then 0
    else amps_request
  let charge_current_request_max : Int := charge_state.charge_current_request_max
  if amps_request > charge_current_request_max then charge_current_request_max
  else amps_request

/-- `TeslaEv.get_charge_state` retry loop (source lines 147-172),
with the endpoint modelled as a stream of outcomes: attempt `i` either
yields a `ChargeState` or raises an `HTTPError` carrying a status code
(`Nat`).  The wake / sleep side effects on the error paths do not affect
the returned value and are elided.  On exhaustion the Python code
re-raises `last_exception` (which is `None` if `attempts_max = 0`),
modelled as `Except.error` of the `Option Nat` last-exception slot. -/
def get_charge_state_loop (responses : Nat → Except Nat ChargeState) :
    Nat → Nat → Option Nat → Except (Option Nat) ChargeState
  | _, 0, last_exception => .error last_exception
  | idx, remaining + 1, _ =>
    match responses idx with
    | .ok vehicle_charge_state => .ok vehicle_charge_state
    | .error status_code =>
      get_charge_state_loop responses (idx + 1) remaining (some status_code)

/-- `TeslaEv.get_charge_state` (source lines 147-172): get the Tesla
Vehicle's charge_state data values, with a re-try loop (default
`attempts_max = 3`). -/
def get_charge_state (responses : Nat → Except Nat ChargeState)
    (attempts_max : Nat := 3) : Except (Option Nat) ChargeState :=
  get_charge_state_loop responses 0 attempts_max none

/-- A remote command issued to the vehicle by
`report_and_change_charge_rate`:  `sync_wake_up`, `CHARGING_AMPS`,
`START_CHARGE` or `STOP_CHARGE`. -/
inductive Command where
  | wake : Command
  | chargingAmps : Int → Command
  | startCharge : Command
  | stopCharge : Command
  deriving DecidableEq

/-- `TeslaEv.report_and_change_charge_rate` (source lines 174-206), as a
pure function of the charge state that its internal `get_charge_state`
call fetched.  Returns the charging-state string the Python function
returns together with the list of remote commands it issues, in order.
The user-facing `print` calls are elided. -/
def report_and_change_charge_rate (amps_delta : Int) (charge_state : ChargeState) :
    String × List Command :=
  match is_able_to_charge charge_state with
  | some reason => (reason, [])
  | none =>
    if charge_state.charging_state = "Charged" then
      (charge_state.charging_state, [])
    else
      let charger_amps_request : Int := calculate_charger_amps_request amps_delta charge_state
      let charger_actual_amps : Int := charge_state.charger_actual_current
      if charger_actual_amps = charger_amps_request then
        (charge_state.charging_state, [])
      else if charger_amps_request = 0 then
        ("Stopped", [Command.wake, Command.chargingAmps charger_amps_request,
          Command.stopCharge])
      else if charger_actual_amps = 0 then
        ("Charging", [Command.wake, Command.chargingAmps charger_amps_request,
          Command.startCharge])
      else
        ("Charging", [Command.wake, Command.chargingAmps charger_amps_request])

/-- `AlphaEssInverter.inverter_volts` (source line 215). -/
def inverter_volts : Rat := 240

/-- `AlphaEssInverter.available_watts` (source lines 245-272), as a pure
function of the raw telemetry reading `last_power` (fields `pbat`,
`pgridDetail.pmeterL1`, `pload`) and of `inverter_power_max`.  The
`report_home_power` side effect is elided. -/
def available_watts (pbat pmeterL1 pload inverter_power_max : Rat)
    (battery_charging_factor : Rat := 0) : Rat :=
  let battery_charging : Rat := -1 * pbat
  let feed_in : Rat := -1 * pmeterL1
  let raw_available_watts : Rat :=
    feed_in +
      (if battery_charging < 0 then battery_charging
       else battery_charging * battery_charging_factor)
  min raw_available_watts (inverter_power_max - pload)

/-- §4.1 of the spec as amended: raw available power folds in the FULL
battery power when the battery is discharging (`battery_charging < 0`)
and only `credit_factor × battery_charging` when it is charging.
Stated over the spec's derived quantities `feed_in` and
`battery_charging` for comparison with `available_watts`. -/
def raw_available_amended (feed_in battery_charging credit_factor : Rat) : Rat :=
  if battery_charging < 0 then feed_in + battery_charging
  else feed_in + battery_charging * credit_factor

/-! ## The control loop (`charge_loop`, source lines 282-345) -/

/-- `loop_delay_active_charging` (source line 292): normal delay for
reading available power while actively charging. -/
def loop_delay_active_charging : Rat := 60

/-- `loop_delay_charge_change_settle` (source line 294): total for EV to
change power consumption and inverter to report change. -/
def loop_delay_charge_change_settle : Rat := 90

/-- `loop_delay_ev_charged` (source line 296): periodical check on
charge level. -/
def loop_delay_ev_charged : Rat := 2 * 3600

/-- `charging_sample_count` (source line 299). -/
def charging_sample_count : Nat := 3

/-- `ev_error_count_max` (source line 300). -/
def ev_error_count_max : Nat := 5

/-- The mutable state of `charge_loop` that survives an iteration:
`available_watts_recent` (most recent first), `ev_error_count_consecutive`,
and `result`. -/
structure LoopState where
  available_watts_recent : List Rat
  ev_error_count_consecutive : Nat
  result : String
  deriving DecidableEq

/-- The initial loop state (source lines 303-305). -/
def initial_loop_state : LoopState :=
  ⟨[], 0, "unset"⟩

/-- The observable outcome of one iteration of the `while` body:
the successor state, whether `report_and_change_charge_rate` was called,
whether that call returned without error, whether the iteration executed
`break`, and the `loop_sleep_time` slept at the bottom of the iteration
(`none` when the iteration broke out before sleeping). -/
structure StepResult where
  state : LoopState
  called : Bool
  succeeded : Bool
  breaks : Bool
  sleep : Option Rat
  deriving DecidableEq

/-- Source lines 309-310: the smoothing window after `np.insert` of the
new sample at position 0 and truncation to `charging_sample_count`. -/
def window_after (avail : Rat) (s : LoopState) : List Rat :=
  (avail :: s.available_watts_recent).take charging_sample_count

/-- Source line 314: `np.average` of the truncated window. -/
def watts_ave_of (avail : Rat) (s : LoopState) : Rat :=
  (window_after avail s).sum / ((window_after avail s).length : Rat)

/-- Source line 316: `math.floor(watts_ave / inverter.volts())`. -/
def amps_delta_of (avail : Rat) (s : LoopState) : Int :=
  Rat.floor (watts_ave_of avail s / inverter_volts)

/-- Source lines 333-342: the `if/elif/elif/else` chain that selects the
sleep delay from the (possibly updated) `result`, or breaks on an
unknown result.  `loop_sleep_time0` is the value `loop_sleep_time` holds
on entry to the chain; every branch either reassigns it or breaks, so it
is dead — kept to mirror the source. -/
def select_delay_or_quit (_loop_sleep_time0 : Rat) (window : List Rat)
    (errCount : Nat) (result : String) (called succeeded : Bool) : StepResult :=
  if result = "Charged" then
    ⟨⟨window, errCount, result⟩, called, succeeded, false, some loop_delay_ev_charged⟩
  else if result = "Stopped" then
    ⟨⟨window, errCount, result⟩, called, succeeded, false, some loop_delay_active_charging⟩
  else if result = "Charging" then
    ⟨⟨window, errCount, result⟩, called, succeeded, false, some loop_delay_active_charging⟩
  else
    -- `logger.error("Quitting. Unknown result: %s", result)` then `break`:
    -- `loop_sleep_time0` is never slept.
    ⟨⟨window, errCount, result⟩, called, succeeded, true, none⟩

/-- One iteration of the `while` body of `charge_loop` (source lines
307-345), given this iteration's `available_watts` sample and an oracle
`ev` for the outcome of `ev.report_and_change_charge_rate(amps_delta)`:
`.ok result` or `.error ()` for a raised `VehicleError`. -/
def charge_loop_step (avail : Rat) (ev : Int → Except Unit String)
    (s : LoopState) : StepResult :=
  let loop_sleep_time : Rat := loop_delay_active_charging
  let window : List Rat := window_after avail s
  if s.result = "unset" ∨ window.length = charging_sample_count then
    let amps_delta : Int := amps_delta_of avail s
    if s.result = "unset"
        ∨ (s.result = "Charging" ∧ amps_delta ≠ 0)
        ∨ (s.result = "Stopped" ∧ 0 < amps_delta) then
      match ev amps_delta with
      | .ok result =>
        select_delay_or_quit loop_delay_charge_change_settle ([] : List Rat)
          0 result true true
      | .error _ =>
        select_delay_or_quit loop_sleep_time window
          (s.ev_error_count_consecutive + 1) s.result true false
    else
      select_delay_or_quit loop_sleep_time window
        s.ev_error_count_consecutive s.result false false
  else
    ⟨⟨window, s.ev_error_count_consecutive, s.result⟩, false, false, false,
      some loop_sleep_time⟩

/-- The `while ev_error_count_consecutive < ev_error_count_max` loop of
`charge_loop`, run with `fuel` as an upper bound on the number of
iterations (the Python loop has no intrinsic bound).  `inputs i` is the
`available_watts` sample of iteration `i` and `evCall i` the EV-call
oracle of iteration `i`.  Returns the final state and the number of
iterations executed — each iteration polls the power source exactly
once, so this is the number of polls performed. -/
def charge_loop_run (inputs : Nat → Rat) (evCall : Nat → Int → Except Unit String) :
    Nat → Nat → LoopState → LoopState × Nat
  | 0, _, s => (s, 0)
  | fuel + 1, i, s =>
    if s.ev_error_count_consecutive < ev_error_count_max then
      let r := charge_loop_step (inputs i) (evCall i) s
      if r.breaks then (r.state, 1)
      else
        let rest := charge_loop_run inputs evCall fuel (i + 1) r.state
        (rest.1, rest.2 + 1)
    else
      (s, 0)

/-! ## Concrete states used by witnesses and counterexamples -/

/-- A readiness-passing charge state: 5 A actual, 16 A maximum. -/
def cs_charging_5_16 : ChargeState :=
  ⟨none, "Engaged", true, "Charging", 5, 16⟩

/-- An endpoint stream that always returns `cs_charging_5_16`. -/
def responses_consistent : Nat → Except Nat ChargeState :=
  fun _ => .ok cs_charging_5_16

/-! ## Helper lemmas -/

section ClaimProofs

/- Batteries marks the arithmetic on `Rat` irreducible, which blocks
`decide` from evaluating the loop's window arithmetic on concrete
inputs; re-allow unfolding locally for the proofs below. -/
attribute [local semireducible] Rat.add Rat.mul Rat.sub Rat.inv

theorem select_delay_or_quit_fields (t : Rat) (w : List Rat) (e : Nat)
    (r : String) (c su : Bool) :
    (select_delay_or_quit t w e r c su).state = ⟨w, e, r⟩ ∧
    (select_delay_or_quit t w e r c su).called = c ∧
    (select_delay_or_quit t w e r c su).succeeded = su := by
  unfold select_delay_or_quit
  split_ifs <;> exact ⟨rfl, rfl, rfl⟩

theorem select_delay_or_quit_sleep_cases (t : Rat) (w : List Rat) (e : Nat)
    (r : String) (c su : Bool) :
    (select_delay_or_quit t w e r c su).sleep = none ∨
    (select_delay_or_quit t w e r c su).sleep = some loop_delay_active_charging ∨
    (select_delay_or_quit t w e r c su).sleep = some loop_delay_ev_charged := by
  unfold select_delay_or_quit
  split_ifs <;> simp

theorem window_after_length_le (avail : Rat) (s : LoopState) :
    (window_after avail s).length ≤ charging_sample_count := by
  unfold window_after
  rw [List.length_take]
  exact min_le_left _ _

theorem charge_loop_step_window_le (avail : Rat) (ev : Int → Except Unit String)
    (s : LoopState) :
    (charge_loop_step avail ev s).state.available_watts_recent.length ≤
      charging_sample_count := by
  simp only [charge_loop_step]
  split
  · split
    · cases hev : ev (amps_delta_of avail s) with
      | ok r =>
        rw [(select_delay_or_quit_fields _ _ _ _ _ _).1]
        simp
      | error e =>
        rw [(select_delay_or_quit_fields _ _ _ _ _ _).1]
        exact window_after_length_le avail s
    · rw [(select_delay_or_quit_fields _ _ _ _ _ _).1]
      exact window_after_length_le avail s
  · exact window_after_length_le avail s

/-! ## Claims -/

/-- C1, counterexample.  In Scenario A (`feed_in = 2000`, i.e.
`pmeterL1 = -2000`; battery power `-500` i.e. `pbat = 500`, the battery
is discharging; `credit_factor = 0`; `load = 1000`; rated maximum
`5000`), `available_watts` returns 1500 W, not the 2000 W the claim
states: the code folds in the FULL discharge power, not
`credit_factor × battery_charging`. -/
theorem available_watts_scenarioA_counterexample :
    available_watts 500 (-2000) 1000 5000 0 = 1500 ∧
    available_watts 500 (-2000) 1000 5000 0 < 2000 := by
  constructor <;> norm_num [available_watts]

/-- C1, amended.  `available_watts` equals the clamp
`min raw (rated_maximum - load)` of a raw value that folds in the FULL
battery power when the battery is discharging (`battery_charging < 0`)
and only `credit_factor × battery_charging` when it is charging; on
Scenario A's inputs the returned value is 1500 W. -/
theorem available_watts_amended :
    (∀ feed_in battery_charging pload inverter_power_max factor : Rat,
      available_watts (-battery_charging) (-feed_in) pload inverter_power_max factor =
        min (raw_available_amended feed_in battery_charging factor)
          (inverter_power_max - pload)) ∧
    available_watts 500 (-2000) 1000 5000 0 = 1500 := by
  constructor
  · intro feed_in battery_charging pload inverter_power_max factor
    unfold available_watts raw_available_amended
    norm_num
    split_ifs <;> rfl
  · norm_num [available_watts]

/-- C3.  `is_able_to_charge` returns `none` exactly when the thermal
precondition is satisfied (`not_enough_power_to_heat` is `None`), the
connector latch is `"Engaged"` and the connector door is open; otherwise
it returns the reason of the first failing check, in the order thermal,
latch, door. -/
theorem is_able_to_charge_first_reason (cs : ChargeState) :
    (is_able_to_charge cs = none ↔
      cs.not_enough_power_to_heat = none ∧ cs.charge_port_latch = "Engaged" ∧
        cs.charge_port_door_open = true) ∧
    (cs.not_enough_power_to_heat ≠ none →
      is_able_to_charge cs =
        some ("not_enough_power_to_heat : " ++ pyOptBool cs.not_enough_power_to_heat)) ∧
    (cs.not_enough_power_to_heat = none → cs.charge_port_latch ≠ "Engaged" →
      is_able_to_charge cs = some ("charge_port_latch : " ++ cs.charge_port_latch)) ∧
    (cs.not_enough_power_to_heat = none → cs.charge_port_latch = "Engaged" →
      cs.charge_port_door_open = false →
      is_able_to_charge cs =
        some ("charge_port_door_open : " ++ pyBool cs.charge_port_door_open)) := by
  unfold is_able_to_charge
  refine ⟨?_, ?_, ?_, ?_⟩
  · split_ifs with h1 h2 h3 <;> simp_all
  · intro h; simp [h]
  · intro h1 h2; simp [h1, h2]
  · intro h1 h2 h3; simp [h1, h2, h3]

/-- C3, witness: on a state whose latch reads `"Disengaged"` (thermal
check passing), the returned reason is the latch reason. -/
theorem is_able_to_charge_first_reason_witness :
    is_able_to_charge ⟨none, "Disengaged", true, "Charging", 0, 16⟩ =
      some ("charge_port_latch : " ++ "Disengaged") :=
  (is_able_to_charge_first_reason ⟨none, "Disengaged", true, "Charging", 0, 16⟩).2.2.1
    rfl (by decide)

/-- C7, counterexample.  With `charge_current_request_max = -1` (an
arbitrary `ChargeState` is not constrained to a non-negative maximum),
`calculate_charger_amps_request` returns `-1`, which is negative — the
claimed interval `[0, charge_current_request_max]` bound fails, and the
below-minimum request (0 + 0 < 1 A) is not forced to 0. -/
theorem calculate_charger_amps_request_counterexample :
    calculate_charger_amps_request 0 ⟨none, "Engaged", true, "Charging", 0, -1⟩ = -1 ∧
    calculate_charger_amps_request 0 ⟨none, "Engaged", true, "Charging", 0, -1⟩ < 0 := by
  constructor <;> decide

/-- C7, amended.  For every integer delta and every charge state whose
`charge_current_request_max` is non-negative, the result lies in
`[0, charge_current_request_max]`, and a requested value strictly below
`charge_amps_min` (1 A) is forced to exactly 0. -/
theorem calculate_charger_amps_request_clamped (amps_delta : Int) (cs : ChargeState)
    (hmax : 0 ≤ cs.charge_current_request_max) :
    (0 ≤ calculate_charger_amps_request amps_delta cs ∧
      calculate_charger_amps_request amps_delta cs ≤ cs.charge_current_request_max) ∧
    (cs.charger_actual_current + amps_delta < charge_amps_min →
      calculate_charger_amps_request amps_delta cs = 0) := by
  constructor
  · constructor <;>
      (simp only [calculate_charger_amps_request, charge_amps_min]; split_ifs <;> omega)
  · intro h
    simp only [calculate_charger_amps_request, charge_amps_min] at h ⊢
    split_ifs <;> omega

/-- C7, witness: at `delta = -10` on `cs_charging_5_16` the result is in
`[0, 16]` and, the request `5 - 10` being below 1 A, equals 0. -/
theorem calculate_charger_amps_request_clamped_witness :
    ((0 ≤ calculate_charger_amps_request (-10) cs_charging_5_16 ∧
      calculate_charger_amps_request (-10) cs_charging_5_16 ≤
        cs_charging_5_16.charge_current_request_max) ∧
    (cs_charging_5_16.charger_actual_current + (-10) < charge_amps_min →
      calculate_charger_amps_request (-10) cs_charging_5_16 = 0)) :=
  calculate_charger_amps_request_clamped (-10) cs_charging_5_16 (by decide)

/-- C8.  If the readiness check passes, the state is not already
`"Charged"`, and the computed request equals the reported actual
current, then `report_and_change_charge_rate` issues no remote command
and returns the existing charging-state tag unchanged. -/
theorem report_and_change_charge_rate_idempotent (amps_delta : Int) (cs : ChargeState)
    (hable : is_able_to_charge cs = none)
    (hnc : cs.charging_state ≠ "Charged")
    (heq : calculate_charger_amps_request amps_delta cs = cs.charger_actual_current) :
    report_and_change_charge_rate amps_delta cs = (cs.charging_state, []) := by
  unfold report_and_change_charge_rate
  rw [hable]
  simp [hnc, heq]

/-- C8, witness: on `cs_charging_5_16` with `delta = 0` the computed
request stays 5 A and the call is a no-op returning `"Charging"`. -/
theorem report_and_change_charge_rate_idempotent_witness :
    report_and_change_charge_rate 0 cs_charging_5_16 = ("Charging", []) :=
  report_and_change_charge_rate_idempotent 0 cs_charging_5_16
    (by decide) (by decide) (by decide)

theorem get_charge_state_loop_ok (responses : Nat → Except Nat ChargeState) :
    ∀ (remaining idx : Nat) (last : Option Nat) (cs : ChargeState),
      get_charge_state_loop responses idx remaining last = .ok cs →
      ∃ j, idx ≤ j ∧ j < idx + remaining ∧ responses j = .ok cs := by
  intro remaining
  induction remaining with
  | zero =>
    intro idx last cs h
    simp [get_charge_state_loop] at h
  | succ n ih =>
    intro idx last cs h
    unfold get_charge_state_loop at h
    cases hr : responses idx with
    | ok cs2 =>
      rw [hr] at h
      have h2 : cs2 = cs := by simpa using h
      refine ⟨idx, le_refl _, by omega, ?_⟩
      rw [hr, h2]
    | error code =>
      rw [hr] at h
      obtain ⟨j, h1, h2, h3⟩ := ih (idx + 1) (some code) cs h
      exact ⟨j, by omega, by omega, h3⟩

/-- C9, counterexample.  `get_charge_state` performs no consistency
check: when the endpoint returns a state with actual current 10 A and
maximum 5 A, the function succeeds and returns it unchanged, with
`charge_current_request_max < charger_actual_current`. -/
theorem get_charge_state_counterexample :
    get_charge_state (fun _ => .ok ⟨none, "Engaged", true, "Charging", 10, 5⟩) 3 =
      .ok ⟨none, "Engaged", true, "Charging", 10, 5⟩ ∧
    (⟨none, "Engaged", true, "Charging", 10, 5⟩ : ChargeState).charge_current_request_max <
      (⟨none, "Engaged", true, "Charging", 10, 5⟩ : ChargeState).charger_actual_current :=
  ⟨rfl, by decide⟩

/-- C9, amended.  On success `get_charge_state` returns exactly the
charge state of the first successful endpoint response (within
`attempts_max` attempts); consequently `charge_current_request_max ≥
charger_actual_current` holds whenever every endpoint response satisfies
it, but the function itself validates nothing. -/
theorem get_charge_state_first_success (responses : Nat → Except Nat ChargeState)
    (attempts_max : Nat) (cs : ChargeState)
    (h : get_charge_state responses attempts_max = .ok cs) :
    (∃ i, i < attempts_max ∧ responses i = .ok cs) ∧
    ((∀ i cs2, responses i = .ok cs2 →
        cs2.charger_actual_current ≤ cs2.charge_current_request_max) →
      cs.charger_actual_current ≤ cs.charge_current_request_max) := by
  obtain ⟨j, _, h2, h3⟩ := get_charge_state_loop_ok responses attempts_max 0 none cs h
  refine ⟨⟨j, by omega, h3⟩, fun hall => hall j cs h3⟩

/-- C9, witness: a constant consistent endpoint stream. -/
theorem get_charge_state_first_success_witness :
    (∃ i, i < 3 ∧ responses_consistent i = .ok cs_charging_5_16) ∧
    ((∀ i cs2, responses_consistent i = .ok cs2 →
        cs2.charger_actual_current ≤ cs2.charge_current_request_max) →
      cs_charging_5_16.charger_actual_current ≤
        cs_charging_5_16.charge_current_request_max) :=
  get_charge_state_first_success responses_consistent 3 cs_charging_5_16 rfl

/-- C2 (supporting theorem for the code bug).  The settle interval is
never the delay actually slept: every iteration of the loop body sleeps
either the active interval (60 s) or the charged interval (7200 s), or
breaks without sleeping — even though a successful rate change first
assigns the settle interval (90 s, longer than the active interval) to
`loop_sleep_time`, the result-based `if/elif/else` chain then overwrites
it on every non-breaking path.  In particular a successful change to
`"Charging"` sleeps 60 s, not 90 s. -/
theorem settle_interval_never_slept :
    loop_delay_active_charging < loop_delay_charge_change_settle ∧
    (∀ (avail : Rat) (ev : Int → Except Unit String) (s : LoopState),
      (charge_loop_step avail ev s).sleep = none ∨
      (charge_loop_step avail ev s).sleep = some loop_delay_active_charging ∨
      (charge_loop_step avail ev s).sleep = some loop_delay_ev_charged) ∧
    ((charge_loop_step 2400 (fun _ => .ok "Charging") initial_loop_state).succeeded = true ∧
      (charge_loop_step 2400 (fun _ => .ok "Charging") initial_loop_state).sleep =
        some loop_delay_active_charging) := by
  refine ⟨by norm_num [loop_delay_active_charging, loop_delay_charge_change_settle],
    ?_, by decide, by decide⟩
  intro avail ev s
  simp only [charge_loop_step]
  split
  · split
    · cases hev : ev (amps_delta_of avail s) with
      | ok r => exact select_delay_or_quit_sleep_cases _ _ _ _ _ _
      | error e => exact select_delay_or_quit_sleep_cases _ _ _ _ _ _
    · exact select_delay_or_quit_sleep_cases _ _ _ _ _ _
  · simp

/-- C5.  Whenever the loop's last result is `"Stopped"` and the amps
delta this iteration's window yields is non-positive,
`report_and_change_charge_rate` is not called this cycle. -/
theorem stopped_nonpositive_delta_never_calls (avail : Rat)
    (ev : Int → Except Unit String) (s : LoopState)
    (hres : s.result = "Stopped") (hd : amps_delta_of avail s ≤ 0) :
    (charge_loop_step avail ev s).called = false := by
  simp only [charge_loop_step]
  split
  · rw [if_neg]
    · exact (select_delay_or_quit_fields _ _ _ _ _ _).2.1
    · rw [hres]
      rintro (h | ⟨h, _⟩ | ⟨_, h⟩)
      · exact absurd h (by decide)
      · exact absurd h (by decide)
      · omega
  · rfl

/-- C5, witness: a `"Stopped"` state with a full all-zero window and a
zero sample gives delta 0, and no call is made. -/
theorem stopped_nonpositive_delta_never_calls_witness :
    (charge_loop_step 0 (fun _ => .ok "Charging") ⟨[0, 0, 0], 0, "Stopped"⟩).called =
      false :=
  stopped_nonpositive_delta_never_calls 0 (fun _ => .ok "Charging")
    ⟨[0, 0, 0], 0, "Stopped"⟩ rfl (by decide)

/-- C6.  The smoothing window never exceeds `charging_sample_count`
samples; a step that did not succeed in changing the rate leaves the
window equal to the new sample consed onto the old window, truncated
(most recent first, oldest evicted); immediately after every successful
rate change the window is empty; and along every run the length bound is
preserved. -/
theorem smoothing_window_invariant :
    (∀ (avail : Rat) (ev : Int → Except Unit String) (s : LoopState),
      (charge_loop_step avail ev s).state.available_watts_recent.length ≤
        charging_sample_count) ∧
    (∀ (avail : Rat) (ev : Int → Except Unit String) (s : LoopState),
      (charge_loop_step avail ev s).succeeded = true →
      (charge_loop_step avail ev s).state.available_watts_recent = []) ∧
    (∀ (avail : Rat) (ev : Int → Except Unit String) (s : LoopState),
      (charge_loop_step avail ev s).succeeded = false →
      (charge_loop_step avail ev s).state.available_watts_recent = window_after avail s) ∧
    (∀ (fuel : Nat) (inputs : Nat → Rat) (evCall : Nat → Int → Except Unit String)
        (i : Nat) (s : LoopState),
      s.available_watts_recent.length ≤ charging_sample_count →
      (charge_loop_run inputs evCall fuel i s).1.available_watts_recent.length ≤
        charging_sample_count) := by
  refine ⟨charge_loop_step_window_le, ?_, ?_, ?_⟩
  · intro avail ev s
    simp only [charge_loop_step]
    split
    · split
      · cases hev : ev (amps_delta_of avail s) with
        | ok r =>
          intro _
          rw [(select_delay_or_quit_fields _ _ _ _ _ _).1]
        | error e =>
          intro h
          rw [(select_delay_or_quit_fields _ _ _ _ _ _).2.2] at h
          simp at h
      · intro h
        rw [(select_delay_or_quit_fields _ _ _ _ _ _).2.2] at h
        simp at h
    · intro h
      simp at h
  · intro avail ev s
    simp only [charge_loop_step]
    split
    · split
      · cases hev : ev (amps_delta_of avail s) with
        | ok r =>
          intro h
          rw [(select_delay_or_quit_fields _ _ _ _ _ _).2.2] at h
          simp at h
        | error e =>
          intro _
          rw [(select_delay_or_quit_fields _ _ _ _ _ _).1]
      · intro _
        rw [(select_delay_or_quit_fields _ _ _ _ _ _).1]
    · intro _
      rfl
  · intro fuel
    induction fuel with
    | zero =>
      intro inputs evCall i s h
      simpa [charge_loop_run] using h
    | succ n ih =>
      intro inputs evCall i s h
      simp only [charge_loop_run]
      split
      · split
        · exact charge_loop_step_window_le _ _ _
        · exact ih inputs evCall (i + 1) _ (charge_loop_step_window_le _ _ _)
      · exact h

/-- C6, witness: a successful rate change from the initial state leaves
an empty window, and a 3-step run from the initial state keeps the
length bound. -/
theorem smoothing_window_invariant_witness :
    (charge_loop_step 2400 (fun _ => .ok "Charging") initial_loop_state).state.available_watts_recent =
      [] ∧
    (charge_loop_run (fun _ => 2400) (fun _ _ => .ok "Charging") 3 0
        initial_loop_state).1.available_watts_recent.length ≤ charging_sample_count :=
  ⟨smoothing_window_invariant.2.1 2400 (fun _ => .ok "Charging") initial_loop_state
      (by decide),
    smoothing_window_invariant.2.2.2 3 (fun _ => 2400) (fun _ _ => .ok "Charging") 0
      initial_loop_state (by decide)⟩

/-- C4.  Once the consecutive-error counter has reached
`ev_error_count_max` (5), the loop performs no further polls of the
power source and exits with the state unchanged; each decision cycle in
which the rate-change call raises `VehicleError` increments the counter
by exactly one, a cycle without a call leaves it unchanged, and a
successful call resets it to 0 — so 5 consecutive failing decision
cycles drive the counter to 5 and the loop exits.  Concretely, from a
full-window `"Charging"` state with an always-failing EV call the loop
executes exactly the 5 failing cycles and stops. -/
theorem charge_loop_exits_after_max_consecutive_failures :
    (∀ (inputs : Nat → Rat) (evCall : Nat → Int → Except Unit String)
        (fuel i : Nat) (s : LoopState),
      ev_error_count_max ≤ s.ev_error_count_consecutive →
      charge_loop_run inputs evCall fuel i s = (s, 0)) ∧
    (∀ (avail : Rat) (ev : Int → Except Unit String) (s : LoopState),
      (charge_loop_step avail ev s).called = true →
      (charge_loop_step avail ev s).succeeded = false →
      (charge_loop_step avail ev s).state.ev_error_count_consecutive =
        s.ev_error_count_consecutive + 1) ∧
    (∀ (avail : Rat) (ev : Int → Except Unit String) (s : LoopState),
      (charge_loop_step avail ev s).called = false →
      (charge_loop_step avail ev s).state.ev_error_count_consecutive =
        s.ev_error_count_consecutive) ∧
    (∀ (avail : Rat) (ev : Int → Except Unit String) (s : LoopState),
      (charge_loop_step avail ev s).succeeded = true →
      (charge_loop_step avail ev s).state.ev_error_count_consecutive = 0) ∧
    charge_loop_run (fun _ => 2400) (fun _ _ => .error ()) 20 0
        ⟨[2400, 2400, 2400], 0, "Charging"⟩ =
      (⟨[2400, 2400, 2400], 5, "Charging"⟩, 5) := by
  refine ⟨?_, ?_, ?_, ?_, by decide⟩
  · intro inputs evCall fuel i s h
    cases fuel with
    | zero => rfl
    | succ n =>
      simp only [charge_loop_run]
      rw [if_neg (by omega)]
  · intro avail ev s
    simp only [charge_loop_step]
    split
    · split
      · cases hev : ev (amps_delta_of avail s) with
        | ok r =>
          intro _ h
          rw [(select_delay_or_quit_fields _ _ _ _ _ _).2.2] at h
          simp at h
        | error e =>
          intro _ _
          rw [(select_delay_or_quit_fields _ _ _ _ _ _).1]
      · intro h _
        rw [(select_delay_or_quit_fields _ _ _ _ _ _).2.1] at h
        simp at h
    · intro h _
      simp at h
  · intro avail ev s
    simp only [charge_loop_step]
    split
    · split
      · cases hev : ev (amps_delta_of avail s) with
        | ok r =>
          intro h
          rw [(select_delay_or_quit_fields _ _ _ _ _ _).2.1] at h
          simp at h
        | error e =>
          intro h
          rw [(select_delay_or_quit_fields _ _ _ _ _ _).2.1] at h
          simp at h
      · intro _
        rw [(select_delay_or_quit_fields _ _ _ _ _ _).1]
    · intro _
      rfl
  · intro avail ev s
    simp only [charge_loop_step]
    split
    · split
      · cases hev : ev (amps_delta_of avail s) with
        | ok r =>
          intro _
          rw [(select_delay_or_quit_fields _ _ _ _ _ _).1]
        | error e =>
          intro h
          rw [(select_delay_or_quit_fields _ _ _ _ _ _).2.2] at h
          simp at h
      · intro h
        rw [(select_delay_or_quit_fields _ _ _ _ _ _).2.2] at h
        simp at h
    · intro h
      simp at h

/-- C4, witness: with the counter already at 5 the run does nothing, and
a failing decision cycle from counter 0 yields counter 1. -/
theorem charge_loop_exits_after_max_consecutive_failures_witness :
    charge_loop_run (fun _ => 2400) (fun _ _ => .error ()) 7 3
        ⟨[2400, 2400, 2400], 5, "Charging"⟩ =
      (⟨[2400, 2400, 2400], 5, "Charging"⟩, 0) ∧
    (charge_loop_step 2400 (fun _ => .error ())
        ⟨[2400, 2400, 2400], 0, "Charging"⟩).state.ev_error_count_consecutive = 0 + 1 :=
  ⟨charge_loop_exits_after_max_consecutive_failures.1 (fun _ => 2400)
      (fun _ _ => .error ()) 7 3 ⟨[2400, 2400, 2400], 5, "Charging"⟩ (by decide),
    charge_loop_exits_after_max_consecutive_failures.2.1 2400 (fun _ => .error ())
      ⟨[2400, 2400, 2400], 0, "Charging"⟩ (by decide) (by decide)⟩

/-- C10.  If the very first rate-change attempt of a run raises
`VehicleError`, the loop's `result` still holds its initial `"unset"`
value, so the unknown-result branch breaks out of the loop after that
single poll, with the consecutive-error counter at 1, strictly below
its maximum of 5; no further polls are performed whatever fuel remains. -/
theorem first_cycle_vehicle_error_quits (fuel : Nat) (inputs : Nat → Rat)
    (evCall : Nat → Int → Except Unit String)
    (hev : ∀ d, evCall 0 d = .error ()) :
    charge_loop_run inputs evCall (fuel + 1) 0 initial_loop_state =
      (⟨[inputs 0], 1, "unset"⟩, 1) ∧ 1 < ev_error_count_max := by
  have hstep : charge_loop_step (inputs 0) (evCall 0) ⟨[], 0, "unset"⟩ =
      ⟨⟨[inputs 0], 1, "unset"⟩, true, false, true, none⟩ := by
    simp only [charge_loop_step, window_after]
    rw [hev]
    simp [select_delay_or_quit, charging_sample_count]
  refine ⟨?_, by decide⟩
  simp [charge_loop_run, initial_loop_state, hstep, ev_error_count_max]

/-- C10, witness: a concrete run whose first EV call fails stops after
one poll with counter 1. -/
theorem first_cycle_vehicle_error_quits_witness :
    charge_loop_run (fun _ => 2400) (fun _ _ => .error ()) 1 0 initial_loop_state =
      (⟨[2400], 1, "unset"⟩, 1) ∧ 1 < ev_error_count_max :=
  first_cycle_vehicle_error_quits 0 (fun _ => 2400) (fun _ _ => .error ())
    (fun _ => rfl)

end ClaimProofs

end TeslaChargerAlphaess
